import Mathlib

/-!
Verification of the client-state synchronization core of a terminal Spotify
client (`spotify_player`), against its specification.

The development shallowly embeds the two source files of the repository:

* `src/spotify_player/src/state/player.rs` — the `PlayerState` structure and
  its methods `current_playing_track` and `playback_progress`;
* `src/spotify_player/src/main.rs` — the startup sequencing
  (`init_spotify`, `start_app`, `main`), embedded as effect traces.

Rust `Option<T>` becomes `Option`; a Rust function that can panic (via
`unwrap` or an overflowing `chrono::Duration` addition) returns `PanicOr`.
`std::time::Instant` is a point on a monotone clock, modelled as a `Nat`
count of nanoseconds; `chrono::Duration` is an `Int` count of nanoseconds,
with the `chrono` range bound (`±i64::MAX` milliseconds) checked exactly
where the Rust library checks it (`Duration::from_std`, `Add`).
-/

/-- Result of running Rust code that may panic: either a panic, or a value. -/
inductive PanicOr (α : Type) where
  | panicked : PanicOr α
  | ok : α → PanicOr α
deriving DecidableEq, Repr

/-- `rspotify_model::FullTrack`, kept abstract: the claims treat the track as
an opaque payload that `current_playing_track` must return unchanged. -/
structure FullTrack where
  name : String
deriving DecidableEq, Repr

/-- `rspotify_model::FullEpisode` (a podcast episode), kept abstract. -/
structure FullEpisode where
  name : String
deriving DecidableEq, Repr

/-- `rspotify::model::PlayableItem`: the current item of a playback context is
either a track or a (podcast) episode. -/
inductive PlayableItem where
  | Track : FullTrack → PlayableItem
  | Episode : FullEpisode → PlayableItem
deriving DecidableEq, Repr

/-- `chrono::Duration` holds at most `i64::MAX` milliseconds
(and at least `-i64::MAX` milliseconds); in nanoseconds: -/
def chronoMaxNanos : Int := 9223372036854775807 * 1000000

/-- `chrono::Duration::from_std`: converts a non-negative `std` duration
(here `Nat` nanoseconds), failing when it exceeds the `chrono` range. -/
def chronoFromStd (d : Nat) : Option Int :=
  if (d : Int) ≤ chronoMaxNanos then some (d : Int) else none

/-- Addition of two `chrono::Duration`s (`impl Add`): panics when the sum
leaves the representable range. -/
def chronoAdd (a b : Int) : PanicOr Int :=
  if -chronoMaxNanos ≤ a + b ∧ a + b ≤ chronoMaxNanos then .ok (a + b)
  else .panicked

/-- `rspotify_model::CurrentPlaybackContext`, restricted to the fields read by
the embedded methods (`item`, `progress`, `is_playing`); the remaining fields
(device, context, shuffle and repeat state, volume, timestamp) are never read
by the code under verification. -/
structure CurrentPlaybackContext where
  item : Option PlayableItem
  progress : Option Int
  is_playing : Bool
deriving DecidableEq, Repr

/-- A playback device (`rspotify_model::Device`), abstract. -/
structure Device where
  id : String
deriving DecidableEq, Repr

/-- `SimplifiedPlayback`: the buffered mirror of playback state, abstract
(none of the embedded methods read its fields). -/
structure SimplifiedPlayback where
  is_playing : Bool
deriving DecidableEq, Repr

/-- `rspotify_model::CurrentUserQueue`, abstract. -/
structure CurrentUserQueue where
  size : Nat
deriving DecidableEq, Repr

/-- `PlayerState` from `src/spotify_player/src/state/player.rs`.
`playback_last_updated_time` is an `Option<std::time::Instant>`: a point on
the monotone clock, in nanoseconds. -/
structure PlayerState where
  devices : List Device
  playback : Option CurrentPlaybackContext
  playback_last_updated_time : Option Nat
  buffered_playback : Option SimplifiedPlayback
  queue : Option CurrentUserQueue
deriving DecidableEq, Repr

/-- `PlayerState::current_playing_track`: the current playing track, when the
playback snapshot is present and its item is a track. -/
def PlayerState.current_playing_track (s : PlayerState) : Option FullTrack :=
  match s.playback with
  | none => none
  | some playback =>
    match playback.item with
    | some (PlayableItem.Track track) => some track
    | _ => none

/-- `PlayerState::playback_progress`, evaluated at monotone-clock instant
`now`. Mirrors the Rust body:
`playback.progress.unwrap()` panics when the inner progress is absent;
when `is_playing`, `playback_last_updated_time.unwrap()` panics when that
field is absent, `Duration::from_std(elapsed).ok()?` turns a range error into
a `none` return, and the `chrono` `+` panics on overflow;
when not playing, `Duration::zero()` is added instead. -/
def PlayerState.playback_progress (s : PlayerState) (now : Nat) :
    PanicOr (Option Int) :=
  match s.playback with
  | none => .ok none
  | some playback =>
    match playback.progress with
    | none => .panicked
    | some p =>
      if playback.is_playing then
        match s.playback_last_updated_time with
        | none => .panicked
        | some t =>
          match chronoFromStd (now - t) with
          | none => .ok none
          | some e =>
            match chronoAdd p e with
            | .panicked => .panicked
            | .ok v => .ok (some v)
      else
        match chronoAdd p 0 with
        | .panicked => .panicked
        | .ok v => .ok (some v)

/-- The `chrono::Duration` representable range, as a predicate. -/
def inChronoRange (d : Int) : Prop :=
  -chronoMaxNanos ≤ d ∧ d ≤ chronoMaxNanos

instance (d : Int) : Decidable (inChronoRange d) := by
  unfold inChronoRange; infer_instance

/-! ### Startup sequencing (`src/spotify_player/src/main.rs`) -/

/-- `event::ClientRequest`, restricted to the variants sent by
`init_spotify`. A device id (inside `ConnectDevice`) is a string. -/
inductive ClientRequest where
  | ConnectDevice : Option String → ClientRequest
  | GetCurrentUserQueue : ClientRequest
  | GetCurrentUser : ClientRequest
  | GetUserPlaylists : ClientRequest
  | GetUserFollowedArtists : ClientRequest
  | GetUserSavedAlbums : ClientRequest
  | GetUserSavedTracks : ClientRequest
deriving DecidableEq, Repr

/-- One observable startup effect of `init_spotify` / the daemon branch of
`start_app`:
`newStreamingConnection` is `client.new_streaming_connection(..)`,
`updateCurrentPlaybackState` is
`client.update_current_playback_state(state).await`, and `send r` is
`client_pub.send(r)`. -/
inductive Effect where
  | newStreamingConnection : Effect
  | updateCurrentPlaybackState : Effect
  | send : ClientRequest → Effect
deriving DecidableEq, Repr

/-- `init_spotify` (main.rs, non-daemon startup), as the sequence of effects
it performs when every step succeeds.
`streamingFeature` is the compile-time `streaming` cargo feature;
`enableStreaming` is `state.app_config.enable_streaming`;
`playbackIsNone` is the value of `state.player.read().playback.is_none()`
observed after the initial playback-state fetch. -/
def init_spotify (streamingFeature enableStreaming playbackIsNone : Bool) :
    List Effect :=
  (if streamingFeature && enableStreaming
    then [Effect.newStreamingConnection] else []) ++
  [Effect.updateCurrentPlaybackState] ++
  (if playbackIsNone
    then [Effect.send (ClientRequest.ConnectDevice none)] else []) ++
  [Effect.send ClientRequest.GetCurrentUserQueue,
   Effect.send ClientRequest.GetCurrentUser,
   Effect.send ClientRequest.GetUserPlaylists,
   Effect.send ClientRequest.GetUserFollowedArtists,
   Effect.send ClientRequest.GetUserSavedAlbums,
   Effect.send ClientRequest.GetUserSavedTracks]

/-- The initialization stage of `start_app` (main.rs line 155-164): the
daemon branch only creates a streaming connection (when the `streaming`
feature is compiled in); the non-daemon branch runs `init_spotify`. -/
def start_app_init (isDaemon streamingFeature enableStreaming
    playbackIsNone : Bool) : List Effect :=
  if isDaemon then
    (if streamingFeature then [Effect.newStreamingConnection] else [])
  else
    init_spotify streamingFeature enableStreaming playbackIsNone

/-! ### Startup error handling (`main` and `start_app` of main.rs) -/

/-- One completed startup step of `main`/`start_app`. The `spawn…` events
are the `tokio::task::spawn`/`spawn_blocking` calls that start steady-state
event processing; everything before them is startup. -/
inductive MainEvent where
  | createConfigFolder : MainEvent
  | createCacheFolders : MainEvent
  | createLogFile : MainEvent
  | createBacktraceFile : MainEvent
  | parseConfigFiles : MainEvent
  | createSession : MainEvent
  | initToken : MainEvent
  | initStage : MainEvent
  | spawnClientSocketTask : MainEvent
  | spawnClientHandlerTask : MainEvent
  | spawnPlayerEventWatcherTask : MainEvent
  | spawnTerminalEventTask : MainEvent
  | spawnUiTask : MainEvent
deriving DecidableEq, Repr

/-- Whether a startup event spawns an application task (enters steady-state
event processing). -/
def MainEvent.isTaskSpawn : MainEvent → Bool
  | .spawnClientSocketTask => true
  | .spawnClientHandlerTask => true
  | .spawnPlayerEventWatcherTask => true
  | .spawnTerminalEventTask => true
  | .spawnUiTask => true
  | _ => false

/-- A fallible startup step (the Rust `?` operator): when `ok`, the step's
event is recorded and the rest of the chain runs; otherwise the chain stops
with the failure (`false`) outcome — in `main` the `Err` propagates out and
the process exits with a diagnostic. -/
def chainStep (ok : Bool) (e : MainEvent) (rest : List MainEvent × Bool) :
    List MainEvent × Bool :=
  if ok then (e :: rest.1, rest.2) else ([], false)

/-- `start_app` (main.rs): create the librespot session (`auth::new_session`,
may fail), initialize the API token (may fail), run the daemon/non-daemon
initialization stage (may fail), then spawn the application tasks — the
client socket task, the client event handler task, the player event watcher
task and, when not a daemon, the terminal event and UI tasks. -/
def start_app_model (sessionOk tokenOk initOk isDaemon : Bool) :
    List MainEvent × Bool :=
  chainStep sessionOk .createSession <|
  chainStep tokenOk .initToken <|
  chainStep initOk .initStage <|
  ([MainEvent.spawnClientSocketTask, MainEvent.spawnClientHandlerTask,
    MainEvent.spawnPlayerEventWatcherTask] ++
   (if isDaemon then []
    else [MainEvent.spawnTerminalEventTask, MainEvent.spawnUiTask]), true)

/-- `main` (main.rs): create the config folder, the cache folders, the log
file and the backtrace file (`init_logging`), parse the config files — each
step may fail and propagates with `?`/`context(..)` — then run `start_app`.
-/
def main_model (cfgFolderOk cacheFoldersOk logFileOk backtraceFileOk
    parseCfgOk sessionOk tokenOk initOk isDaemon : Bool) :
    List MainEvent × Bool :=
  chainStep cfgFolderOk .createConfigFolder <|
  chainStep cacheFoldersOk .createCacheFolders <|
  chainStep logFileOk .createLogFile <|
  chainStep backtraceFileOk .createBacktraceFile <|
  chainStep parseCfgOk .parseConfigFiles <|
  start_app_model sessionOk tokenOk initOk isDaemon

/-! ### Streaming connection supersession -/

/-- An observable action of the Streaming Connection Supervisor. -/
inductive SupEvent where
  | broadcastShutdown : Nat → SupEvent
  | installActive : Nat → SupEvent
deriving DecidableEq, Repr

/-- Modelled from the spec: the Streaming Connection Supervisor's recorded
state. The supersession logic (`client::new_streaming_connection` and the
client handler) is not among the source files; `main.rs` only creates the
shutdown broadcast channel "used to notify a shutdown to running streaming
connections upon creating a new connection". Spec §4.3: at most one
connection handle is the system of record at a time. Handles are numbered.
-/
structure StreamingSupervisor where
  active : Option Nat
deriving DecidableEq, Repr

/-- Modelled from the spec: creating a new streaming connection first
broadcasts the shutdown signal to the previous handle (when one is active)
and only then installs the new handle as the system of record
(spec §4.3 state machine: {Active(old)} → broadcast-shutdown(old) →
{Active(new)}). Returns the emitted events (in order) and the new state. -/
def new_streaming_connection (sup : StreamingSupervisor) (hNew : Nat) :
    List SupEvent × StreamingSupervisor :=
  ((match sup.active with
    | some old => [SupEvent.broadcastShutdown old]
    | none => []) ++ [SupEvent.installActive hNew],
   StreamingSupervisor.mk (some hNew))

/-- The states the Supervisor can reach: starting from no connection and
creating/superseding connections. -/
inductive SupReachable : StreamingSupervisor → Prop where
  | init : SupReachable (StreamingSupervisor.mk none)
  | step : ∀ sup hNew, SupReachable sup →
      SupReachable (new_streaming_connection sup hNew).2

/-! ### Sanity checks on concrete inputs -/

example :
    (PlayerState.mk [] none none none none).playback_progress 5 = .ok none := by
  decide

example :
    (PlayerState.mk []
      (some (CurrentPlaybackContext.mk none (some 7) false)) none none
      none).playback_progress 5 = .ok (some 7) := by
  decide

example :
    (PlayerState.mk []
      (some (CurrentPlaybackContext.mk none (some 7) true)) (some 2) none
      none).playback_progress 5 = .ok (some 10) := by
  decide

example :
    (PlayerState.mk []
      (some (CurrentPlaybackContext.mk none none true)) (some 2) none
      none).playback_progress 5 = .panicked := by
  decide

example : init_spotify true true true =
    [Effect.newStreamingConnection, Effect.updateCurrentPlaybackState,
     Effect.send (ClientRequest.ConnectDevice none),
     Effect.send ClientRequest.GetCurrentUserQueue,
     Effect.send ClientRequest.GetCurrentUser,
     Effect.send ClientRequest.GetUserPlaylists,
     Effect.send ClientRequest.GetUserFollowedArtists,
     Effect.send ClientRequest.GetUserSavedAlbums,
     Effect.send ClientRequest.GetUserSavedTracks] := by decide

example : (main_model true true true true true true true true false).2 = true
    := by decide

example : main_model true true false true true true true true false =
    ([MainEvent.createConfigFolder, MainEvent.createCacheFolders], false) := by
  decide

/-! ### Evaluation lemmas for `playback_progress` -/

theorem playback_progress_of_no_playback (s : PlayerState) (now : Nat)
    (h : s.playback = none) : s.playback_progress now = .ok none := by
  simp [PlayerState.playback_progress, h]

theorem playback_progress_of_no_progress (s : PlayerState)
    (pb : CurrentPlaybackContext) (now : Nat)
    (hpb : s.playback = some pb) (hp : pb.progress = none) :
    s.playback_progress now = .panicked := by
  simp [PlayerState.playback_progress, hpb, hp]

theorem playback_progress_of_paused (s : PlayerState)
    (pb : CurrentPlaybackContext) (p : Int) (now : Nat)
    (hpb : s.playback = some pb) (hp : pb.progress = some p)
    (hplay : pb.is_playing = false) (hr : inChronoRange p) :
    s.playback_progress now = .ok (some p) := by
  have hr' : -chronoMaxNanos ≤ p ∧ p ≤ chronoMaxNanos := hr
  simp [PlayerState.playback_progress, hpb, hp, hplay, chronoAdd, hr'.1, hr'.2]

theorem playback_progress_of_no_instant (s : PlayerState)
    (pb : CurrentPlaybackContext) (p : Int) (now : Nat)
    (hpb : s.playback = some pb) (hp : pb.progress = some p)
    (hplay : pb.is_playing = true) (ht : s.playback_last_updated_time = none) :
    s.playback_progress now = .panicked := by
  simp [PlayerState.playback_progress, hpb, hp, hplay, ht]

theorem playback_progress_of_playing (s : PlayerState)
    (pb : CurrentPlaybackContext) (p : Int) (t now : Nat)
    (hpb : s.playback = some pb) (hp : pb.progress = some p)
    (hplay : pb.is_playing = true) (ht : s.playback_last_updated_time = some t)
    (he : ((now - t : Nat) : Int) ≤ chronoMaxNanos)
    (hsum : inChronoRange (p + ((now - t : Nat) : Int))) :
    s.playback_progress now = .ok (some (p + ((now - t : Nat) : Int))) := by
  have hsum' : -chronoMaxNanos ≤ p + ((now - t : Nat) : Int) ∧
      p + ((now - t : Nat) : Int) ≤ chronoMaxNanos := hsum
  simp [PlayerState.playback_progress, hpb, hp, hplay, ht, chronoFromStd, he,
    chronoAdd, hsum']

theorem playback_progress_of_elapsed_overflow (s : PlayerState)
    (pb : CurrentPlaybackContext) (p : Int) (t now : Nat)
    (hpb : s.playback = some pb) (hp : pb.progress = some p)
    (hplay : pb.is_playing = true) (ht : s.playback_last_updated_time = some t)
    (he : ¬ ((now - t : Nat) : Int) ≤ chronoMaxNanos) :
    s.playback_progress now = .ok none := by
  simp [PlayerState.playback_progress, hpb, hp, hplay, ht, chronoFromStd, he]

/-! ### Claims about `PlayerState` -/

/-- C1: for every `PlayerState`, `playback_progress()` returns none when
`playback` is absent; when `playback` is present (with its stored progress
value in range) and `is_playing` is false, it returns exactly the stored
progress value; when `is_playing` is true (with the timestamp present and the
extrapolated value representable), it returns the stored progress plus the
wall-clock time elapsed since `playback_last_updated_time`. -/
theorem C1_playback_progress_spec (s : PlayerState) (now : Nat) :
    (s.playback = none → s.playback_progress now = .ok none) ∧
    (∀ pb p, s.playback = some pb → pb.progress = some p → inChronoRange p →
      pb.is_playing = false → s.playback_progress now = .ok (some p)) ∧
    (∀ pb p t, s.playback = some pb → pb.progress = some p →
      pb.is_playing = true → s.playback_last_updated_time = some t →
      t ≤ now → (now : Int) - (t : Int) ≤ chronoMaxNanos →
      inChronoRange (p + ((now : Int) - (t : Int))) →
      s.playback_progress now = .ok (some (p + ((now : Int) - (t : Int))))) := by
  refine ⟨fun h => playback_progress_of_no_playback s now h,
    fun pb p hpb hp hr hplay => playback_progress_of_paused s pb p now hpb hp hplay hr,
    fun pb p t hpb hp hplay ht htn he hsum => ?_⟩
  have hcast : ((now - t : Nat) : Int) = (now : Int) - (t : Int) :=
    Int.ofNat_sub htn
  have := playback_progress_of_playing s pb p t now hpb hp hplay ht
    (by rw [hcast]; exact he) (by rw [hcast]; exact hsum)
  rw [hcast] at this
  exact this

/-- C1 witness: the three cases of `C1_playback_progress_spec` at concrete
states (no playback; paused with stored progress 7; playing with stored
progress 7 fetched at instant 2, queried at instant 5, giving 10). -/
theorem C1_playback_progress_spec_witness :
    (PlayerState.mk [] none none none none).playback_progress 5 = .ok none ∧
    (PlayerState.mk []
      (some (CurrentPlaybackContext.mk none (some 7) false)) none none
      none).playback_progress 5 = .ok (some 7) ∧
    (PlayerState.mk []
      (some (CurrentPlaybackContext.mk none (some 7) true)) (some 2) none
      none).playback_progress 5 = .ok (some 10) :=
  ⟨(C1_playback_progress_spec _ 5).1 rfl,
   (C1_playback_progress_spec _ 5).2.1 _ 7 rfl rfl (by decide) rfl,
   by
    have := (C1_playback_progress_spec
      (PlayerState.mk []
        (some (CurrentPlaybackContext.mk none (some 7) true)) (some 2) none
        none) 5).2.2 _ 7 2 rfl rfl rfl rfl (by decide) (by decide) (by decide)
    simpa using this⟩

/-- C10: `playback_progress()` is total only under the unstated precondition
that the inner `progress` field is present whenever `playback` is present:
whenever `playback` is present with its inner progress absent,
`playback_progress()` panics (on `progress.unwrap()`) instead of returning
none. -/
theorem C10_missing_inner_progress_panics (s : PlayerState)
    (pb : CurrentPlaybackContext) (now : Nat)
    (hpb : s.playback = some pb) (hp : pb.progress = none) :
    s.playback_progress now = .panicked :=
  playback_progress_of_no_progress s pb now hpb hp

/-- C10 witness: a concrete state with `playback` present but inner progress
absent, where `playback_progress` panics. -/
theorem C10_missing_inner_progress_panics_witness :
    (PlayerState.mk []
      (some (CurrentPlaybackContext.mk none none false)) (some 0) none
      none).playback_progress 3 = .panicked :=
  C10_missing_inner_progress_panics _ _ 3 rfl rfl

/-- C2 counterexample. The claim fails on the code in both directions:
(1) in a state satisfying the claim's precondition (`playback` and
`playback_last_updated_time` both present) the inner `progress.unwrap()` is
still reachable — `playback_progress` panics; (2) a state with `playback`
present but `playback_last_updated_time` absent and `is_playing` false is not
treated as fatal — `playback_progress` returns the stored progress. -/
theorem C2_counterexample :
    (let s1 : PlayerState := PlayerState.mk []
      (some (CurrentPlaybackContext.mk none none false)) (some 0) none none
     s1.playback ≠ none ∧ s1.playback_last_updated_time ≠ none ∧
       s1.playback_progress 1 = .panicked) ∧
    (let s2 : PlayerState := PlayerState.mk []
      (some (CurrentPlaybackContext.mk none (some 5) false)) none none none
     s2.playback ≠ none ∧ s2.playback_last_updated_time = none ∧
       s2.playback_progress 1 = .ok (some 5)) := by
  constructor
  · exact ⟨by decide, by decide, by decide⟩
  · exact ⟨by decide, by decide, by decide⟩

/-- C2 as amended: under the precondition that `playback` and
`playback_last_updated_time` are set together or not at all AND that the
inner `progress` field is present (and in `chrono` range, the extrapolated
sum included) whenever `playback` is present, no unwrap in
`playback_progress()` is reachable (no panic); and attempting to compute
progress with `playback` present, inner progress present, `is_playing` TRUE
and `playback_last_updated_time` absent panics, never silently producing a
wrong value. -/
theorem C2_unwrap_safety (s : PlayerState) (now : Nat) :
    (s.playback = none → s.playback_progress now ≠ .panicked) ∧
    (∀ pb p, s.playback = some pb → pb.progress = some p → inChronoRange p →
      pb.is_playing = false → s.playback_progress now ≠ .panicked) ∧
    (∀ pb p t, s.playback = some pb → pb.progress = some p →
      pb.is_playing = true → s.playback_last_updated_time = some t →
      (((now - t : Nat) : Int) ≤ chronoMaxNanos →
        inChronoRange (p + ((now - t : Nat) : Int))) →
      s.playback_progress now ≠ .panicked) ∧
    (∀ pb p, s.playback = some pb → pb.progress = some p →
      pb.is_playing = true → s.playback_last_updated_time = none →
      s.playback_progress now = .panicked) := by
  refine ⟨fun h => by rw [playback_progress_of_no_playback s now h]; simp,
    fun pb p hpb hp hr hplay => by
      rw [playback_progress_of_paused s pb p now hpb hp hplay hr]; simp,
    fun pb p t hpb hp hplay ht hsum => ?_,
    fun pb p hpb hp hplay ht =>
      playback_progress_of_no_instant s pb p now hpb hp hplay ht⟩
  by_cases he : ((now - t : Nat) : Int) ≤ chronoMaxNanos
  · rw [playback_progress_of_playing s pb p t now hpb hp hplay ht he (hsum he)]
    simp
  · rw [playback_progress_of_elapsed_overflow s pb p t now hpb hp hplay ht he]
    simp

/-- C2 witness: the amended no-panic and must-panic cases at concrete
states. -/
theorem C2_unwrap_safety_witness :
    (PlayerState.mk []
      (some (CurrentPlaybackContext.mk none (some 4) true)) (some 1) none
      none).playback_progress 3 ≠ .panicked ∧
    (PlayerState.mk []
      (some (CurrentPlaybackContext.mk none (some 4) true)) none none
      none).playback_progress 3 = .panicked :=
  ⟨(C2_unwrap_safety _ 3).2.2.1 _ 4 1 rfl rfl rfl rfl (fun _ => by decide),
   (C2_unwrap_safety _ 3).2.2.2 _ 4 rfl rfl rfl rfl⟩

/-- C9: `current_playing_track()` returns a track exactly when `playback` is
present and its current item is that track; it returns none when `playback`
is absent, when the playback has no item, and when the current item is a
podcast episode. -/
theorem C9_current_playing_track_spec (s : PlayerState) :
    (∀ track, s.current_playing_track = some track ↔
      ∃ pb, s.playback = some pb ∧
        pb.item = some (PlayableItem.Track track)) ∧
    (s.playback = none → s.current_playing_track = none) ∧
    (∀ pb, s.playback = some pb → pb.item = none →
      s.current_playing_track = none) ∧
    (∀ pb ep, s.playback = some pb →
      pb.item = some (PlayableItem.Episode ep) →
      s.current_playing_track = none) := by
  refine ⟨fun track => ?_, fun h => by simp [PlayerState.current_playing_track, h],
    fun pb hpb hitem => by simp [PlayerState.current_playing_track, hpb, hitem],
    fun pb ep hpb hitem => by simp [PlayerState.current_playing_track, hpb, hitem]⟩
  constructor
  · intro h
    cases hpb : s.playback with
    | none => simp [PlayerState.current_playing_track, hpb] at h
    | some pb =>
      cases hitem : pb.item with
      | none => simp [PlayerState.current_playing_track, hpb, hitem] at h
      | some it =>
        cases it with
        | Track tr =>
          simp [PlayerState.current_playing_track, hpb, hitem] at h
          exact ⟨pb, rfl, by simp [hitem, h]⟩
        | Episode ep =>
          simp [PlayerState.current_playing_track, hpb, hitem] at h
  · rintro ⟨pb, hpb, hitem⟩
    simp [PlayerState.current_playing_track, hpb, hitem]

/-- C9 witness: a concrete state whose current item is a track, on which
`current_playing_track` returns that track. -/
theorem C9_current_playing_track_spec_witness :
    (PlayerState.mk []
      (some (CurrentPlaybackContext.mk
        (some (PlayableItem.Track (FullTrack.mk "a"))) (some 0) true))
      (some 0) none none).current_playing_track =
      some (FullTrack.mk "a") :=
  ((C9_current_playing_track_spec _).1 _).mpr ⟨_, rfl, rfl⟩

theorem playback_progress_of_sum_overflow (s : PlayerState)
    (pb : CurrentPlaybackContext) (p : Int) (t now : Nat)
    (hpb : s.playback = some pb) (hp : pb.progress = some p)
    (hplay : pb.is_playing = true) (ht : s.playback_last_updated_time = some t)
    (he : ((now - t : Nat) : Int) ≤ chronoMaxNanos)
    (hsum : ¬ inChronoRange (p + ((now - t : Nat) : Int))) :
    s.playback_progress now = .panicked := by
  have hsum' : ¬(-chronoMaxNanos ≤ p + ((now - t : Nat) : Int) ∧
      p + ((now - t : Nat) : Int) ≤ chronoMaxNanos) := hsum
  simp [PlayerState.playback_progress, hpb, hp, hplay, ht, chronoFromStd, he,
    chronoAdd, hsum']

/-- C5: while `playback` is present with `is_playing` true and no new fetch
intervenes (the state is unchanged), `playback_progress()` is monotonically
non-decreasing in the wall clock: whenever querying at instant `now1` yields
`v1` and querying the same state at a later instant `now2` yields `v2`,
`v1 ≤ v2`. -/
theorem C5_progress_monotone (s : PlayerState) (pb : CurrentPlaybackContext)
    (now1 now2 : Nat) (v1 v2 : Int)
    (hpb : s.playback = some pb) (hplay : pb.is_playing = true)
    (h12 : now1 ≤ now2)
    (h1 : s.playback_progress now1 = .ok (some v1))
    (h2 : s.playback_progress now2 = .ok (some v2)) : v1 ≤ v2 := by
  cases hp : pb.progress with
  | none =>
    rw [playback_progress_of_no_progress s pb now1 hpb hp] at h1
    exact absurd h1 (by simp)
  | some p =>
    cases ht : s.playback_last_updated_time with
    | none =>
      rw [playback_progress_of_no_instant s pb p now1 hpb hp hplay ht] at h1
      exact absurd h1 (by simp)
    | some t =>
      by_cases he1 : ((now1 - t : Nat) : Int) ≤ chronoMaxNanos
      · by_cases hs1 : inChronoRange (p + ((now1 - t : Nat) : Int))
        · rw [playback_progress_of_playing s pb p t now1 hpb hp hplay ht he1
            hs1] at h1
          by_cases he2 : ((now2 - t : Nat) : Int) ≤ chronoMaxNanos
          · by_cases hs2 : inChronoRange (p + ((now2 - t : Nat) : Int))
            · rw [playback_progress_of_playing s pb p t now2 hpb hp hplay ht
                he2 hs2] at h2
              simp only [PanicOr.ok.injEq, Option.some.injEq] at h1 h2
              have hsub : now1 - t ≤ now2 - t := Nat.sub_le_sub_right h12 t
              omega
            · rw [playback_progress_of_sum_overflow s pb p t now2 hpb hp hplay
                ht he2 hs2] at h2
              exact absurd h2 (by simp)
          · rw [playback_progress_of_elapsed_overflow s pb p t now2 hpb hp
              hplay ht he2] at h2
            exact absurd h2 (by simp)
        · rw [playback_progress_of_sum_overflow s pb p t now1 hpb hp hplay ht
            he1 hs1] at h1
          exact absurd h1 (by simp)
      · rw [playback_progress_of_elapsed_overflow s pb p t now1 hpb hp hplay
          ht he1] at h1
        exact absurd h1 (by simp)

/-- C5 witness, the spec's scenario: a snapshot with stored progress 10s
(in nanoseconds) fetched at instant `t = 1000`, queried with no intervening
fetch 5s later, yields 15s; and the two query results satisfy the
monotonicity conclusion `10s ≤ 15s` via the theorem. -/
theorem C5_progress_monotone_witness :
    (PlayerState.mk []
      (some (CurrentPlaybackContext.mk none (some 10000000000) true))
      (some 1000) none none).playback_progress 1000 =
        .ok (some 10000000000) ∧
    (PlayerState.mk []
      (some (CurrentPlaybackContext.mk none (some 10000000000) true))
      (some 1000) none none).playback_progress 5000001000 =
        .ok (some 15000000000) ∧
    (10000000000 : Int) ≤ 15000000000 :=
  ⟨by decide, by decide,
   C5_progress_monotone
     (PlayerState.mk []
       (some (CurrentPlaybackContext.mk none (some 10000000000) true))
       (some 1000) none none)
     (CurrentPlaybackContext.mk none (some 10000000000) true)
     1000 5000001000 10000000000 15000000000 rfl rfl (by decide)
     (by decide) (by decide)⟩

/-- C3: non-daemon startup performs its steps in order: the streaming
connection (present exactly when the feature and config flag are both on)
strictly before the playback-state fetch; the fetch before the conditional
`ConnectDevice(None)`; and the six user-data requests last, in the order
queue, current user, playlists, followed artists, saved albums, saved
tracks (all six always present, after the fetch and after any
`ConnectDevice`). -/
theorem C3_init_spotify_order (sf es pn : Bool) :
    (Effect.newStreamingConnection ∈ init_spotify sf es pn ↔
      sf && es = true) ∧
    (sf && es = true →
      (init_spotify sf es pn).indexOf Effect.newStreamingConnection <
        (init_spotify sf es pn).indexOf Effect.updateCurrentPlaybackState) ∧
    (pn = true →
      (init_spotify sf es pn).indexOf Effect.updateCurrentPlaybackState <
        (init_spotify sf es pn).indexOf
          (Effect.send (ClientRequest.ConnectDevice none)) ∧
      (init_spotify sf es pn).indexOf
          (Effect.send (ClientRequest.ConnectDevice none)) <
        (init_spotify sf es pn).indexOf
          (Effect.send ClientRequest.GetCurrentUserQueue)) ∧
    Effect.updateCurrentPlaybackState ∈ init_spotify sf es pn ∧
    Effect.send ClientRequest.GetCurrentUserQueue ∈ init_spotify sf es pn ∧
    Effect.send ClientRequest.GetUserSavedTracks ∈ init_spotify sf es pn ∧
    (init_spotify sf es pn).indexOf Effect.updateCurrentPlaybackState <
      (init_spotify sf es pn).indexOf
        (Effect.send ClientRequest.GetCurrentUserQueue) ∧
    (init_spotify sf es pn).indexOf
        (Effect.send ClientRequest.GetCurrentUserQueue) <
      (init_spotify sf es pn).indexOf
        (Effect.send ClientRequest.GetCurrentUser) ∧
    (init_spotify sf es pn).indexOf
        (Effect.send ClientRequest.GetCurrentUser) <
      (init_spotify sf es pn).indexOf
        (Effect.send ClientRequest.GetUserPlaylists) ∧
    (init_spotify sf es pn).indexOf
        (Effect.send ClientRequest.GetUserPlaylists) <
      (init_spotify sf es pn).indexOf
        (Effect.send ClientRequest.GetUserFollowedArtists) ∧
    (init_spotify sf es pn).indexOf
        (Effect.send ClientRequest.GetUserFollowedArtists) <
      (init_spotify sf es pn).indexOf
        (Effect.send ClientRequest.GetUserSavedAlbums) ∧
    (init_spotify sf es pn).indexOf
        (Effect.send ClientRequest.GetUserSavedAlbums) <
      (init_spotify sf es pn).indexOf
        (Effect.send ClientRequest.GetUserSavedTracks) := by
  revert sf es pn; decide

/-- C3 witness: the ordering facts instantiated with streaming enabled and an
empty post-fetch playback. -/
theorem C3_init_spotify_order_witness :
    Effect.newStreamingConnection ∈ init_spotify true true true ∧
    (init_spotify true true true).indexOf Effect.newStreamingConnection <
      (init_spotify true true true).indexOf
        Effect.updateCurrentPlaybackState :=
  ⟨(C3_init_spotify_order true true true).1.mpr (by decide),
   (C3_init_spotify_order true true true).2.1 (by decide)⟩

/-- C4: on non-daemon startup, `ConnectDevice(None)` is enqueued if and only
if the playback field is still empty after the initial playback-state
fetch. -/
theorem C4_connect_device_iff (sf es pn : Bool) :
    Effect.send (ClientRequest.ConnectDevice none) ∈ init_spotify sf es pn ↔
      pn = true := by
  revert sf es pn; decide

/-- C4 witness: with an empty post-fetch playback the request is present;
with a non-empty one it is absent. -/
theorem C4_connect_device_iff_witness :
    Effect.send (ClientRequest.ConnectDevice none) ∈
      init_spotify true true true ∧
    Effect.send (ClientRequest.ConnectDevice none) ∉
      init_spotify true true false :=
  ⟨(C4_connect_device_iff true true true).mpr rfl,
   fun h => by simpa using (C4_connect_device_iff true true false).mp h⟩

/-- C7: daemon startup performs at most the streaming-connection
establishment and none of the interactive startup steps: every effect of the
daemon branch is `newStreamingConnection` — in particular there is no
playback-state fetch and no request (neither `ConnectDevice(None)` nor any
of the six user-data fetches) is enqueued. -/
theorem C7_daemon_init_only_streaming (sf es pn : Bool) :
    ∀ e ∈ start_app_init true sf es pn, e = Effect.newStreamingConnection := by
  revert sf es pn; decide

/-- C7 witness: with the `streaming` feature on, the only daemon-startup
effect is the streaming connection. -/
theorem C7_daemon_init_only_streaming_witness :
    Effect.updateCurrentPlaybackState ∉ start_app_init true true true true :=
  fun h => by
    simpa using C7_daemon_init_only_streaming true true true _ h

/-- C8: startup errors are fatal. When session/authentication creation fails
(`auth::new_session` or `client.init_token`), or the config-folder,
cache-folder, log-file or backtrace-file creation fails, the startup chain
ends with the failure outcome (the error propagates out of `main`, which
terminates the process with a diagnostic) and no application task is ever
spawned — steady-state event processing is never entered. -/
theorem C8_startup_errors_fatal (cfgFolderOk cacheFoldersOk logFileOk
    backtraceFileOk parseCfgOk sessionOk tokenOk initOk isDaemon : Bool)
    (hfail : cfgFolderOk = false ∨ cacheFoldersOk = false ∨
      logFileOk = false ∨ backtraceFileOk = false ∨
      sessionOk = false ∨ tokenOk = false) :
    (main_model cfgFolderOk cacheFoldersOk logFileOk backtraceFileOk
      parseCfgOk sessionOk tokenOk initOk isDaemon).2 = false ∧
    ∀ e ∈ (main_model cfgFolderOk cacheFoldersOk logFileOk backtraceFileOk
      parseCfgOk sessionOk tokenOk initOk isDaemon).1,
      e.isTaskSpawn = false := by
  revert cfgFolderOk cacheFoldersOk logFileOk backtraceFileOk parseCfgOk
    sessionOk tokenOk initOk isDaemon
  decide

/-- C8 witness: a failed session creation (all folder/log steps fine) aborts
the run and spawns no task. -/
theorem C8_startup_errors_fatal_witness :
    (main_model true true true true true false true true false).2 = false ∧
    ∀ e ∈ (main_model true true true true true false true true false).1,
      e.isTaskSpawn = false :=
  C8_startup_errors_fatal true true true true true false true true false
    (by decide)

/-- C6: whenever an active streaming connection is superseded by a new one,
the shutdown signal to the prior connection is emitted strictly before the
event that records the new connection as active, and afterwards the new
handle is the recorded one; moreover in every reachable supervisor state at
most one connection is recorded as active. -/
theorem C6_supersession_protocol (sup : StreamingSupervisor) (hNew old : Nat)
    (hactive : sup.active = some old) :
    (∃ i j, i < j ∧
      ((new_streaming_connection sup hNew).1).get? i =
        some (SupEvent.broadcastShutdown old) ∧
      ((new_streaming_connection sup hNew).1).get? j =
        some (SupEvent.installActive hNew)) ∧
    (new_streaming_connection sup hNew).2.active = some hNew ∧
    (∀ s, SupReachable s → ∀ a b, s.active = some a → s.active = some b →
      a = b) := by
  refine ⟨⟨0, 1, Nat.zero_lt_one, ?_, ?_⟩, ?_, ?_⟩
  · simp [new_streaming_connection, hactive]
  · simp [new_streaming_connection, hactive]
  · simp [new_streaming_connection]
  · intro s _ a b ha hb
    rw [ha] at hb
    exact Option.some.inj hb

/-- C6 witness: superseding active handle 1 with handle 2 emits the shutdown
to 1 before installing 2, and records 2. -/
theorem C6_supersession_protocol_witness :
    (∃ i j, i < j ∧
      ((new_streaming_connection (StreamingSupervisor.mk (some 1)) 2).1).get?
        i = some (SupEvent.broadcastShutdown 1) ∧
      ((new_streaming_connection (StreamingSupervisor.mk (some 1)) 2).1).get?
        j = some (SupEvent.installActive 2)) ∧
    (new_streaming_connection (StreamingSupervisor.mk (some 1)) 2).2.active =
      some 2 ∧
    (∀ s, SupReachable s → ∀ a b, s.active = some a → s.active = some b →
      a = b) :=
  C6_supersession_protocol (StreamingSupervisor.mk (some 1)) 2 1 rfl
